import Mathlib

/-!
Shallow embedding of the bank-analyzer import and categorization pipeline
(`src/importer.py`, `src/database.py`, `src/categorizer.py`).

Python strings are modelled as lists of characters (`PyStr`), with the
string primitives (`upper`, `strip`, `split`, `replace`, `in`, …)
implemented as structurally recursive functions on the ASCII fragment.
Python `float` amounts are modelled as `Rat` (exact decimal arithmetic),
the SQLite transaction table as a list of records in insertion order, and
raised exceptions as `Except String`-style sums.
-/

set_option maxRecDepth 10000
set_option maxHeartbeats 1000000

abbrev PyStr := List Char

deriving instance DecidableEq for Except

/-- A string literal viewed as a `PyStr`. -/
def chars (s : String) : PyStr := s.toList

/-- Python `str.upper()` (ASCII fragment, character-wise). -/
def pyUpper (s : PyStr) : PyStr := s.map Char.toUpper

/-- Python `str.lower()` (ASCII fragment, character-wise). -/
def pyLower (s : PyStr) : PyStr := s.map Char.toLower

/-- Python `s.startswith(pre)`. -/
def pyStartsWith (s pre : PyStr) : Bool := pre.isPrefixOf s

/-- Helper for the Python `needle in hay` substring test. -/
def isSubList (needle : PyStr) : PyStr → Bool
  | [] => needle.isEmpty
  | c :: t => needle.isPrefixOf (c :: t) || isSubList needle t

/-- Python `needle in hay` substring test. -/
def pyContains (hay needle : PyStr) : Bool := isSubList needle hay

/-- Python `str.strip()` (ASCII whitespace fragment). -/
def pyStrip (s : PyStr) : PyStr :=
  ((s.dropWhile Char.isWhitespace).reverse.dropWhile Char.isWhitespace).reverse

/-- Python `str.split()` with no argument: split on whitespace runs,
dropping empty pieces. -/
def pySplitWs (s : PyStr) : List PyStr :=
  (s.splitOnP Char.isWhitespace).filter (fun t => !t.isEmpty)

/-- Body of `pyReplace` for a non-empty pattern `p :: ps`: replace
non-overlapping occurrences left to right, as Python `str.replace`.
Structural recursion on a fuel that bounds the list length, so that the
definition reduces by `decide`. -/
def listReplaceFuel (p : Char) (ps rep : PyStr) : Nat → PyStr → PyStr
  | _, [] => []
  | 0, l => l
  | fuel + 1, c :: t =>
    if c = p ∧ ps.isPrefixOf t then
      rep ++ listReplaceFuel p ps rep fuel (t.drop ps.length)
    else c :: listReplaceFuel p ps rep fuel t

/-- Python `s.replace(pat, rep)` (the importer only calls it with
non-empty patterns). -/
def pyReplace (s pat rep : PyStr) : PyStr :=
  match pat with
  | [] => s
  | p :: ps => listReplaceFuel p ps rep s.length s

/-- Value of a list of ASCII digits read in base 10. -/
def digitsVal (l : List Char) : Nat :=
  l.foldl (fun a c => 10 * a + (c.toNat - 48)) 0

/-- Decimal digits of a `Nat` (Python `str(n)`). -/
def natChars (n : Nat) : PyStr := (Nat.repr n).toList

/-- Exact rational subtraction in a form the kernel can evaluate
(`Rat.sub` is `@[irreducible]`); agrees with `a - b`. -/
def ratSub (a b : Rat) : Rat :=
  mkRat (a.num * b.den - b.num * a.den) (a.den * b.den)

/-- Python `float(s)` on fixed-point decimal notation
(`[+-]? digits`, `[+-]? digits . digits`, one side of the dot possibly
empty), as the exact decimal value: `none` models a raised `ValueError`.
The exotic float forms (exponents, `inf`/`nan`, underscores) are outside
the locale formats this importer normalizes and are not modelled. -/
def pyFloat? (s : PyStr) : Option Rat :=
  let t := pyStrip s
  let body : Int × PyStr :=
    match t with
    | [] => (1, [])
    | c :: rest =>
      if c = '-' then (-1, rest)
      else if c = '+' then (1, rest)
      else (1, c :: rest)
  match body.2.splitOn '.' with
  | [d] =>
    if d ≠ [] ∧ d.all Char.isDigit then
      some (mkRat (body.1 * (digitsVal d : Int)) 1)
    else none
  | [ip, fp] =>
    if (ip ≠ [] ∨ fp ≠ []) ∧ ip.all Char.isDigit ∧ fp.all Char.isDigit then
      some (mkRat (body.1 * ((digitsVal ip * 10 ^ fp.length + digitsVal fp : Nat) : Int)) (10 ^ fp.length))
    else none
  | _ => none

/-- The non-breaking space character `\xa0`. -/
def nbspChar : Char := Char.ofNat 160

/-- `CSVImporter._clean_amount` (importer.py:239-267): blank input gives 0;
otherwise remove spaces and non-breaking spaces, turn `,` into `.`, if more
than one `.` remains drop all but the last, then parse, falling back to 0. -/
def clean_amount (amount_str : PyStr) : Rat :=
  if amount_str = [] ∨ pyStrip amount_str = [] then 0
  else
    let s1 := pyReplace (pyReplace amount_str (chars " ") []) [nbspChar] []
    let s2 := pyStrip s1
    let s3 := pyReplace s2 (chars ",") (chars ".")
    let s4 :=
      if 1 < s3.count '.' then
        let parts := s3.splitOn '.'
        (parts.dropLast).flatten ++ chars "." ++ parts.getLastD []
      else s3
    match pyFloat? s4 with
    | some v => v
    | none => 0

/-- The ordered list of known description prefixes
(importer.py:202-215). -/
def transaction_types : List PyStr :=
  [chars "PAIEMENT PAR CARTE",
   chars "VIREMENT EN VOTRE FAVEUR",
   chars "VIREMENT EMIS",
   chars "VIREMENT",
   chars "PRELEVEMENT",
   chars "RETRAIT AU DISTRIBUTEUR",
   chars "REMBOURSEMENT DE PRET",
   chars "COTISATION",
   chars "REGLEMENT",
   chars "AVOIR",
   chars "INTERETS",
   chars "FRAIS"]

/-- The `for t_type in transaction_types` loop of `_parse_description`
(importer.py:221-232): the first prefix matching the uppercased
description wins; for card payments a first remaining token starting with
`X` is dropped when further tokens follow. -/
def findTypeLoop (d : PyStr) : List PyStr → PyStr × PyStr
  | [] => (chars "AUTRE", d)
  | t :: rest =>
    if pyStartsWith (pyUpper d) t then
      let name0 := pyStrip (d.drop t.length)
      let parts := pySplitWs name0
      let name :=
        if parts ≠ [] ∧ t = chars "PAIEMENT PAR CARTE" ∧ pyStartsWith (parts.headD []) (chars "X") then
          if 1 < parts.length then List.intercalate (chars " ") parts.tail else name0
        else name0
      (t, name)
    else findTypeLoop d rest

/-- `CSVImporter._parse_description` (importer.py:187-237). -/
def parse_description (description : PyStr) : PyStr × PyStr :=
  let d0 := pyReplace (pyReplace description (chars "\n") (chars " ")) (chars "\r") (chars " ")
  let d1 := List.intercalate (chars " ") (pySplitWs d0)
  let d := pyStrip d1
  let (ty, name) := findTypeLoop d transaction_types
  (ty, if name = [] then chars "-" else name.take 50)

/-- The three `strptime` patterns appearing in `BANK_CONFIGS`:
`%d/%m/%Y`, `%m/%d/%Y` and `%Y-%m-%d`. -/
inductive DateFmt
  | dmySlash
  | mdySlash
  | ymdDash
deriving Repr, DecidableEq

/-- Gregorian leap-year rule (as used by Python `datetime`). -/
def isLeap (y : Nat) : Bool :=
  (y % 4 == 0 && y % 100 != 0) || y % 400 == 0

/-- Days in a month of the proleptic Gregorian calendar. -/
def daysInMonth (y m : Nat) : Nat :=
  if m = 2 then (if isLeap y then 29 else 28)
  else if m = 4 ∨ m = 6 ∨ m = 9 ∨ m = 11 then 30
  else 31

/-- A 1-2 digit `strptime` field constrained to `[lo, hi]`. -/
def parse2? (s : PyStr) (lo hi : Nat) : Option Nat :=
  if s ≠ [] ∧ s.length ≤ 2 ∧ s.all Char.isDigit then
    let n := digitsVal s
    if lo ≤ n ∧ n ≤ hi then some n else none
  else none

/-- The 4-digit `%Y` field of `strptime`. -/
def parse4? (s : PyStr) : Option Nat :=
  if s.length = 4 ∧ s.all Char.isDigit then some (digitsVal s) else none

/-- `datetime.strptime` for the three config patterns: exact separators,
digit-only fields, and calendar validation (`year ≥ 1`, day within the
month).  Returns `(year, month, day)`, `none` for `ValueError`. -/
def strptimeDate? : DateFmt → PyStr → Option (Nat × Nat × Nat)
  | .dmySlash, s =>
    match s.splitOn '/' with
    | [ds, ms, ys] => do
      let d ← parse2? ds 1 31
      let m ← parse2? ms 1 12
      let y ← parse4? ys
      if 1 ≤ y ∧ d ≤ daysInMonth y m then pure (y, m, d) else none
    | _ => none
  | .mdySlash, s =>
    match s.splitOn '/' with
    | [ms, ds, ys] => do
      let m ← parse2? ms 1 12
      let d ← parse2? ds 1 31
      let y ← parse4? ys
      if 1 ≤ y ∧ d ≤ daysInMonth y m then pure (y, m, d) else none
    | _ => none
  | .ymdDash, s =>
    match s.splitOn '-' with
    | [ys, ms, ds] => do
      let y ← parse4? ys
      let m ← parse2? ms 1 12
      let d ← parse2? ds 1 31
      if 1 ≤ y ∧ d ≤ daysInMonth y m then pure (y, m, d) else none
    | _ => none

/-- Zero-pad a number to two digits (`strftime` `%m`, `%d`). -/
def pad2 (n : Nat) : PyStr :=
  if n < 10 then '0' :: natChars n else natChars n

/-- Zero-pad a number to four digits (`strftime` `%Y`). -/
def pad4 (n : Nat) : PyStr :=
  if n < 10 then chars "000" ++ natChars n
  else if n < 100 then chars "00" ++ natChars n
  else if n < 1000 then chars "0" ++ natChars n
  else natChars n

/-- `CSVImporter._parse_date` (importer.py:269-275): strip, parse with the
config pattern, reformat as ISO `YYYY-MM-DD`; a parse failure raises
`ValueError` (the message is abridged to its fixed head). -/
def parse_date (fmt : DateFmt) (date_str : PyStr) : Except PyStr PyStr :=
  match strptimeDate? fmt (pyStrip date_str) with
  | some (y, m, d) => .ok (pad4 y ++ chars "-" ++ pad2 m ++ chars "-" ++ pad2 d)
  | none => .error (chars "Cannot parse date: " ++ date_str)

/-- The `Transaction` dataclass (database.py:12-25); fields the importer
does not set keep their defaults.  `amount` is the exact decimal value. -/
structure Transaction where
  date : PyStr
  description : PyStr
  amount : Rat
  category : Option PyStr := none
  type : Option PyStr := none
  name : Option PyStr := none
  recurrence : Bool := false
  vital : Bool := false
  savings : Bool := false
deriving DecidableEq

/-- The SQLite `transactions` table, as its rows in insertion order. -/
abbrev Store := List Transaction

/-- `Database.get_duplicate_check` (database.py:247-256): is there a
persisted transaction with the same `(date, description, amount)` triple?
(The source returns the matching row id or `None`; only its truthiness is
ever used.) -/
def get_duplicate_check (db : Store) (date description : PyStr) (amount : Rat) : Bool :=
  db.any fun t => decide (t.date = date ∧ t.description = description ∧ t.amount = amount)

/-- `Database.insert_transaction` (database.py:88-98): append a row. -/
def insert_transaction (db : Store) (t : Transaction) : Store := db ++ [t]

/-- An import configuration (`CSVImporter.BANK_CONFIGS` entry merged over
the default, importer.py:110-112): `amount_column = some c` is a config
carrying an `amount_column` key (single signed column), `none` the
debit/credit-pair layout.  Encoding and `skip_rows` are not modelled (the
file is given as decoded lines). -/
structure ImportConfig where
  date_column : PyStr
  description_column : PyStr
  amount_column : Option PyStr
  debit_column : PyStr
  credit_column : PyStr
  delimiter : Char
  date_format : DateFmt

/-- The `french_bank` config (importer.py:17-27), which is also
`DEFAULT_CONFIG`. -/
def french_bank : ImportConfig where
  date_column := chars "Date"
  description_column := chars "Libellé"
  amount_column := none
  debit_column := chars "Débit euros"
  credit_column := chars "Crédit euros"
  delimiter := ';'
  date_format := .dmySlash

/-- The `generic_amount` config (importer.py:94-104). -/
def generic_amount : ImportConfig where
  date_column := chars "Date"
  description_column := chars "Description"
  amount_column := some (chars "Montant")
  debit_column := chars "Débit euros"
  credit_column := chars "Crédit euros"
  delimiter := ','
  date_format := .ymdDash

/-- A CSV row as `csv.DictReader` yields it: header fields paired with the
row values in order.  Lookup follows Python dict semantics (a later
duplicate key overwrites an earlier one). -/
abbrev Row := List (PyStr × PyStr)

/-- `dict(zip(header, values))` with `DictReader` padding: values past the
header are dropped (the source stores them under the `None` key, which no
string lookup reaches) and missing values are padded (`restval` modelled
as the empty string). -/
def mkRow : List PyStr → List PyStr → Row
  | [], _ => []
  | h :: hs, [] => (h, []) :: mkRow hs []
  | h :: hs, v :: vs => (h, v) :: mkRow hs vs

/-- Python `d.get(k, default)` on a `Row`: the value of the last entry
with key `k` (later keys overwrite earlier ones), else the default. -/
def dictGetD (r : Row) (k d : PyStr) : PyStr :=
  ((r.reverse.find? fun kv => kv.1 == k).map fun kv => kv.2).getD d

/-- The header-detection patterns of `_parse_csv` (importer.py:143-147). -/
def expected_patterns : List (PyStr × PyStr) :=
  [(chars "Date", chars "Libell"),
   (chars "Date", chars "D"),
   (chars "Date", chars "Crédit")]

/-- One line matches a pattern when its uppercasing contains both
uppercased parts (importer.py:150-153). -/
def lineMatchesPattern (line : PyStr) (p : PyStr × PyStr) : Bool :=
  pyContains (pyUpper line) (pyUpper p.1) && pyContains (pyUpper line) (pyUpper p.2)

/-- The primary header scan (importer.py:149-157): index of the first line
matching any expected pattern. -/
def findHeaderIdx (lines : List PyStr) : Option Nat :=
  lines.findIdx? fun line => expected_patterns.any (lineMatchesPattern line)

/-- The fallback header scan (importer.py:159-164): first line containing
`Date` (case-sensitively) and `Libell` or `Description`. -/
def findHeaderFallback (lines : List PyStr) : Option Nat :=
  lines.findIdx? fun line =>
    pyContains line (chars "Date") &&
      (pyContains line (chars "Libell") || pyContains line (chars "Description"))

/-- `CSVImporter._parse_csv` (importer.py:130-185) on the decoded lines of
the file: locate the header line, then read each following line as a
delimiter-separated record (fields are modelled unquoted; the multi-line
quoted-field handling of `csv` is not exercised here), skipping blank
lines and rows whose values are all blank.  Raising is modelled as
`.error` with the message of the wrapping `Exception`. -/
def parse_csv (cfg : ImportConfig) (lines : List PyStr) : Except PyStr (List Row) :=
  let idx? :=
    match findHeaderIdx lines with
    | some i => some i
    | none => findHeaderFallback lines
  match idx? with
  | none => .error (chars "Error parsing CSV: Could not find header row in CSV file")
  | some i =>
    match lines.drop i with
    | [] => .ok []
    | hdrLine :: dataLines =>
      let hdr := hdrLine.splitOn cfg.delimiter
      .ok <| dataLines.filterMap fun line =>
        if line = [] then none
        else
          let r := mkRow hdr (line.splitOn cfg.delimiter)
          if r ≠ [] ∧ r.any (fun kv => !(pyStrip kv.2).isEmpty) then some r else none

/-- `required_cols` (importer.py:303-310). -/
def required_cols (cfg : ImportConfig) : List PyStr :=
  match cfg.amount_column with
  | some a => [cfg.date_column, cfg.description_column, a]
  | none => [cfg.date_column, cfg.description_column, cfg.debit_column, cfg.credit_column]

/-- Keys of a Python dict built by comprehension, in first-insertion
order with duplicates collapsed. -/
def firstOccKeys : List PyStr → List PyStr
  | [] => []
  | k :: ks => k :: (firstOccKeys ks).filter fun x => x != k

/-- `available_cols` of the first row (importer.py:316): stripped keys in
dict order. -/
def availableKeys (firstRow : Row) : List PyStr :=
  firstOccKeys (firstRow.map fun kv => pyStrip kv.1)

/-- The flexible column-match disjunction (importer.py:330-334). -/
def flexMatch (req avail : PyStr) : Bool :=
  let r := pyLower req
  let a := pyLower avail
  (pyContains r (chars "date") && pyContains a (chars "date")) ||
  (pyContains r (chars "libell") && pyContains a (chars "libell")) ||
  (pyContains r (chars "d") && pyContains a (chars "d") && pyContains a (chars "euros")) ||
  (pyContains r (chars "cr") && pyContains a (chars "cr") && pyContains a (chars "euros")) ||
  (pyContains r (chars "montant") && pyContains a (chars "montant"))

/-- `col_mapping` for one required column (importer.py:320-336): exact
match first, else the first available column passing `flexMatch`. -/
def colMap1 (keys : List PyStr) (req : PyStr) : Option PyStr :=
  if keys.contains req then some req
  else keys.find? fun a => flexMatch req a

/-- The mapped column used in lookups, `col_mapping.get(col, col)`
(importer.py:351-352). -/
def mappedCol (keys : List PyStr) (req : PyStr) : PyStr :=
  (colMap1 keys req).getD req

/-- Outcome of the body of the per-row loop before the duplicate check:
either a row-level warning or a candidate transaction. -/
inductive RowOut
  | warn (msg : PyStr)
  | trans (t : Transaction)
deriving DecidableEq

/-- The body of the `for idx, row in enumerate(rows, start=1)` loop
(importer.py:345-385): parse the date (a failure is the caught
`ValueError`), read the description, compute the amount from the single
amount column or the debit/credit pair, then reject empty descriptions
and otherwise build the transaction.  This part of the loop body does not
consult the store. -/
def processRow (cfg : ImportConfig) (keys : List PyStr) (idx : Nat) (row : Row) : RowOut :=
  match parse_date cfg.date_format
      (pyStrip (dictGetD (row.map fun kv => (pyStrip kv.1, kv.2))
        (mappedCol keys cfg.date_column) [])) with
  | .error e => .warn (chars "Row " ++ natChars idx ++ chars ": " ++ e)
  | .ok date =>
    if pyStrip (dictGetD (row.map fun kv => (pyStrip kv.1, kv.2))
        (mappedCol keys cfg.description_column) []) = [] then
      .warn (chars "Row " ++ natChars idx ++ chars ": Empty description, skipping")
    else
      .trans { date := date,
               description := pyStrip (dictGetD (row.map fun kv => (pyStrip kv.1, kv.2))
                 (mappedCol keys cfg.description_column) []),
               amount :=
                 match cfg.amount_column with
                 | some acol =>
                   clean_amount (dictGetD (row.map fun kv => (pyStrip kv.1, kv.2))
                     (mappedCol keys acol) [])
                 | none =>
                   if 0 < clean_amount (dictGetD (row.map fun kv => (pyStrip kv.1, kv.2))
                       (mappedCol keys cfg.credit_column) []) then
                     ratSub
                       (clean_amount (dictGetD (row.map fun kv => (pyStrip kv.1, kv.2))
                         (mappedCol keys cfg.credit_column) []))
                       (clean_amount (dictGetD (row.map fun kv => (pyStrip kv.1, kv.2))
                         (mappedCol keys cfg.debit_column) []))
                   else
                     -clean_amount (dictGetD (row.map fun kv => (pyStrip kv.1, kv.2))
                       (mappedCol keys cfg.debit_column) []),
               type := some (parse_description (pyStrip (dictGetD
                 (row.map fun kv => (pyStrip kv.1, kv.2))
                 (mappedCol keys cfg.description_column) []))).1,
               name := some (parse_description (pyStrip (dictGetD
                 (row.map fun kv => (pyStrip kv.1, kv.2))
                 (mappedCol keys cfg.description_column) []))).2 }

/-- The per-row loop (importer.py:344-397): accumulates accepted
transactions, warnings and the duplicate count in row order.  The
duplicate check consults the store passed to the call, which is not
mutated inside the loop (inserts happen only after it). -/
def processRows (cfg : ImportConfig) (keys : List PyStr) (db : Option Store) :
    Nat → List Row → List Transaction × List PyStr × Nat
  | _, [] => ([], [], 0)
  | idx, row :: rest =>
    let (ts, ws, dups) := processRows cfg keys db (idx + 1) rest
    match processRow cfg keys idx row with
    | .warn m => (ts, m :: ws, dups)
    | .trans t =>
      match db with
      | some store =>
        if get_duplicate_check store t.date t.description t.amount then (ts, ws, dups + 1)
        else (t :: ts, ws, dups)
      | none => (t :: ts, ws, dups)

/-- `get_duplicate_check` applied to a transaction's own natural key. -/
def isDup (store : Store) (t : Transaction) : Bool :=
  get_duplicate_check store t.date t.description t.amount

/-- The candidate transactions produced by the loop bodies alone, in row
order; the duplicate check is not consulted. -/
def parsedTrans (cfg : ImportConfig) (keys : List PyStr) : Nat → List Row → List Transaction
  | _, [] => []
  | idx, row :: rest =>
    match processRow cfg keys idx row with
    | .warn _ => parsedTrans cfg keys (idx + 1) rest
    | .trans t => t :: parsedTrans cfg keys (idx + 1) rest

/-- The row-level warnings produced by the loop bodies alone, in row
order; independent of any store. -/
def rowWarns (cfg : ImportConfig) (keys : List PyStr) : Nat → List Row → List PyStr
  | _, [] => []
  | idx, row :: rest =>
    match processRow cfg keys idx row with
    | .warn m => m :: rowWarns cfg keys (idx + 1) rest
    | .trans _ => rowWarns cfg keys (idx + 1) rest

/-- The stripped first-row keys used for column resolution
(importer.py:314-316). -/
def importKeys (rows : List Row) : List PyStr := availableKeys (rows.headD [])

/-- `missing_cols` (importer.py:338). -/
def missingCols (cfg : ImportConfig) (rows : List Row) : List PyStr :=
  (required_cols cfg).filter fun c => (colMap1 (importKeys rows) c).isNone

/-- The duplicate-summary warning `⚠️ {n} transaction(s) dupliquée(s)
ignorée(s)` (importer.py:404). -/
def dupWarnMsg (n : Nat) : PyStr :=
  chars "⚠️ " ++ natChars n ++ chars " transaction(s) dupliquée(s) ignorée(s)"

/-- The result of `import_file`.  The source usually returns the triple
`(transactions, warnings, duplicates_skipped)` but the early exit for a
file with no data rows (importer.py:296-298) returns only the pair
`(transactions, warnings)`: that pair return is modelled by
`duplicates := none`. -/
structure ImportResult where
  transactions : List Transaction
  warnings : List PyStr
  duplicates : Option Nat
deriving DecidableEq

/-- `CSVImporter.import_file` (importer.py:277-411) on the decoded lines
of an existing file: parse the CSV, early-exit on an empty row list,
resolve the required columns against the first row (a failure is the
hard missing-columns error), run the per-row loop, append the
duplicate-summary warning when any duplicates were skipped, and finally
insert the accepted transactions into the store when one was supplied.
Returns the result together with the updated store. -/
def import_file (cfg : ImportConfig) (lines : List PyStr) (db : Option Store) :
    Except PyStr (ImportResult × Option Store) :=
  match parse_csv cfg lines with
  | .error e => .error (chars "Import failed: " ++ e)
  | .ok rows =>
    if rows = [] then
      .ok ({ transactions := [], warnings := [chars "No transactions found in file"],
             duplicates := none }, db)
    else
      if missingCols cfg rows ≠ [] then
        .error (chars "Import failed: Colonnes manquantes dans le CSV. Attendu: " ++
          List.intercalate (chars ", ") (required_cols cfg) ++
          chars "\nTrouvé: " ++ List.intercalate (chars ", ") (importKeys rows))
      else
        match processRows cfg (importKeys rows) db 1 rows with
        | (ts, ws, dups) =>
          let ws2 := if 0 < dups then ws ++ [dupWarnMsg dups] else ws
          let db2 :=
            match db with
            | some store => some (ts.foldl insert_transaction store)
            | none => none
          .ok ({ transactions := ts, warnings := ws2, duplicates := some dups }, db2)

/-- The category/rule tables touched by `Categorizer` (database.py:64-85):
`categories` rows as `(id, name)`, `categorization_rules` rows as
`(id, keyword, category_id)`. -/
structure CategoriesDB where
  categories : List (Nat × PyStr)
  rules : List (Nat × PyStr × Nat)
deriving DecidableEq

/-- `Categorizer.delete_category` (categorizer.py:380-391): `False`
without a database; otherwise delete by name and report
`cursor.rowcount > 0`, i.e. whether any row matched. -/
def delete_category (db : Option CategoriesDB) (category_name : PyStr) :
    Bool × Option CategoriesDB :=
  match db with
  | none => (false, none)
  | some d =>
    let deleted := d.categories.any fun c => c.2 == category_name
    (deleted, some { d with categories := d.categories.filter fun c => c.2 != category_name })

/-- `Categorizer.delete_rule` (categorizer.py:442-452): `False` without a
database; otherwise delete by id and return `True` unconditionally — the
row count is never consulted. -/
def delete_rule (db : Option CategoriesDB) (rule_id : Nat) :
    Bool × Option CategoriesDB :=
  match db with
  | none => (false, none)
  | some d =>
    (true, some { d with rules := d.rules.filter fun r => r.1 != rule_id })

/-! ### Concrete fixtures used by the verification theorems -/

/-- The standard French-bank header line. -/
def hdrLineF : PyStr := chars "Date;Libellé;Débit euros;Crédit euros"

/-- A card-payment debit row. -/
def rowCard : PyStr := chars "15/01/2024;PAIEMENT PAR CARTE X3573 LIDL 0780;85,50;"

/-- An incoming-transfer credit row. -/
def rowVir : PyStr := chars "16/01/2024;VIREMENT EN VOTRE FAVEUR LBC France;;100,00"

/-- A row whose description is empty. -/
def rowEmptyDesc : PyStr := chars "17/01/2024;;10,00;"

/-- A row whose date does not parse. -/
def rowBadDate : PyStr := chars "99/99/2024;PRELEVEMENT Orange SA;5,00;"

/-- The transaction produced by `rowCard`. -/
def tCard : Transaction :=
  { date := chars "2024-01-15", description := chars "PAIEMENT PAR CARTE X3573 LIDL 0780",
    amount := mkRat (-171) 2, type := some (chars "PAIEMENT PAR CARTE"),
    name := some (chars "LIDL 0780") }

/-- The transaction produced by `rowVir`. -/
def tVir : Transaction :=
  { date := chars "2024-01-16", description := chars "VIREMENT EN VOTRE FAVEUR LBC France",
    amount := mkRat 100 1, type := some (chars "VIREMENT EN VOTRE FAVEUR"),
    name := some (chars "LBC France") }

/-- A string with its spaces and non-breaking spaces removed (the first
normalization step of `_clean_amount`). -/
def spaceStripped (s : PyStr) : PyStr :=
  (s.filter fun c => !(c == ' ')).filter fun c => !(c == nbspChar)

/-- The tail of `_clean_amount` after space removal: strip, `,`→`.`,
thousands-dot removal, parse-or-zero. -/
def cleanCore (s1 : PyStr) : Rat :=
  let s2 := pyStrip s1
  let s3 := pyReplace s2 (chars ",") (chars ".")
  let s4 :=
    if 1 < s3.count '.' then
      let parts := s3.splitOn '.'
      (parts.dropLast).flatten ++ chars "." ++ parts.getLastD []
    else s3
  match pyFloat? s4 with
  | some v => v
  | none => 0

/-- The stripped header keys of the French-bank layout, as column
resolution sees them. -/
def frenchKeys : List PyStr :=
  [chars "Date", chars "Libellé", chars "Débit euros", chars "Crédit euros"]

/-- Eight arbitrary metadata lines containing no form of `date`. -/
def metaLines : List PyStr :=
  [chars "Compte: 00012345",
   chars "Titulaire: M MARTIN",
   chars "IBAN: FR76 1234",
   chars "Solde au 31/12/2023: 1000,00",
   chars "",
   chars "Devise: EUR",
   chars "Agence: PARIS",
   chars "Export bancaire"]

/-- A metadata line that contains `Date` but none of the other signature
fragments. -/
def metaDateLine : PyStr := chars "Date export: 2024"

/-- `rowBadDate` as the dictionary `csv.DictReader` would yield. -/
def rowBadDateDict : Row :=
  [(chars "Date", chars "99/99/2024"), (chars "Libellé", chars "PRELEVEMENT Orange SA"),
   (chars "Débit euros", chars "5,00"), (chars "Crédit euros", chars "")]

/-- `rowEmptyDesc` as the dictionary `csv.DictReader` would yield. -/
def rowEmptyDescDict : Row :=
  [(chars "Date", chars "17/01/2024"), (chars "Libellé", chars ""),
   (chars "Débit euros", chars "10,00"), (chars "Crédit euros", chars "")]

/-! ### String-primitive lemmas -/

theorem isSubList_eq_true_iff (needle : PyStr) :
    ∀ hay, isSubList needle hay = true ↔ needle <:+: hay
  | [] => by
    simp [isSubList, List.isEmpty_iff]
  | c :: t => by
    rw [isSubList]
    simp [ List.infix_cons_iff, isSubList_eq_true_iff needle t]

theorem pyContains_iff (hay needle : PyStr) :
    pyContains hay needle = true ↔ needle <:+: hay :=
  isSubList_eq_true_iff needle hay

theorem pyStrip_eq_nil_iff (s : PyStr) :
    pyStrip s = [] ↔ ∀ c ∈ s, c.isWhitespace := by
  unfold pyStrip
  constructor
  · intro h c hc
    rw [List.reverse_eq_nil_iff, List.dropWhile_eq_nil_iff] at h
    rw [← List.takeWhile_append_dropWhile (p := Char.isWhitespace) (l := s)] at hc
    rcases List.mem_append.mp hc with h1 | h2
    · exact List.mem_takeWhile_imp h1
    · exact h c (List.mem_reverse.mpr h2)
  · intro h
    have hd : s.dropWhile Char.isWhitespace = [] :=
      List.dropWhile_eq_nil_iff.mpr fun x hx => h x hx
    simp [hd]

theorem listReplaceFuel_del (p : Char) :
    ∀ (l : PyStr) (fuel : Nat), l.length ≤ fuel →
      listReplaceFuel p [] [] fuel l = l.filter fun c => !(c == p)
  | [], fuel, _ => by cases fuel <;> rfl
  | c :: t, fuel + 1, h => by
    have ih := listReplaceFuel_del p t fuel (by simpa using h)
    by_cases hc : c = p <;>
      simp [listReplaceFuel, hc, ih, List.filter_cons]

theorem pyReplace_del (s : PyStr) (p : Char) :
    pyReplace s [p] [] = s.filter fun c => !(c == p) :=
  listReplaceFuel_del p s s.length (Nat.le_refl _)

theorem listReplaceFuel_subst (p q : Char) :
    ∀ (l : PyStr) (fuel : Nat), l.length ≤ fuel →
      listReplaceFuel p [] [q] fuel l = l.map fun c => if c = p then q else c
  | [], fuel, _ => by cases fuel <;> rfl
  | c :: t, fuel + 1, h => by
    have ih := listReplaceFuel_subst p q t fuel (by simpa using h)
    by_cases hc : c = p <;>
      simp [listReplaceFuel, hc, ih]

theorem pyReplace_subst (s : PyStr) (p q : Char) :
    pyReplace s [p] [q] = s.map fun c => if c = p then q else c :=
  listReplaceFuel_subst p q s s.length (Nat.le_refl _)

/-! ### `_clean_amount` structure lemmas -/

theorem cleanCore_of_strip_nil (t : PyStr) (h : pyStrip t = []) : cleanCore t = 0 := by
  simp only [cleanCore]
  rw [h]
  decide

theorem clean_amount_eq_core (s : PyStr) :
    clean_amount s = cleanCore (spaceStripped s) := by
  have hrw : spaceStripped s =
      pyReplace (pyReplace s (chars " ") []) [nbspChar] [] := by
    have h1 : pyReplace s (chars " ") [] = s.filter fun c => !(c == ' ') :=
      pyReplace_del s ' '
    rw [spaceStripped, h1, pyReplace_del]
  by_cases hb : s = [] ∨ pyStrip s = []
  · have hz : clean_amount s = 0 := by
      unfold clean_amount
      rw [if_pos hb]
    rw [hz]
    rcases hb with hb | hb
    · subst hb
      decide
    · have hws : ∀ c ∈ s, c.isWhitespace := (pyStrip_eq_nil_iff s).mp hb
      have hws2 : ∀ c ∈ spaceStripped s, c.isWhitespace := by
        intro c hc
        simp only [spaceStripped, List.mem_filter] at hc
        exact hws c hc.1.1
      exact (cleanCore_of_strip_nil _ ((pyStrip_eq_nil_iff _).mpr hws2)).symm
  · unfold clean_amount
    rw [if_neg hb, hrw]
    simp only [cleanCore]

/-! ### Import-loop decomposition lemmas -/

theorem processRows_none (cfg : ImportConfig) (keys : List PyStr) :
    ∀ (idx : Nat) (rows : List Row),
      processRows cfg keys none idx rows =
        (parsedTrans cfg keys idx rows, rowWarns cfg keys idx rows, 0)
  | idx, [] => rfl
  | idx, row :: rest => by
    have ih := processRows_none cfg keys (idx + 1) rest
    cases h : processRow cfg keys idx row with
    | warn m => simp [processRows, parsedTrans, rowWarns, ih, h]
    | trans t => simp [processRows, parsedTrans, rowWarns, ih, h]

theorem processRows_some (cfg : ImportConfig) (keys : List PyStr) (store : Store) :
    ∀ (idx : Nat) (rows : List Row),
      processRows cfg keys (some store) idx rows =
        ((parsedTrans cfg keys idx rows).filter (fun t => !isDup store t),
         rowWarns cfg keys idx rows,
         (parsedTrans cfg keys idx rows).countP (fun t => isDup store t))
  | idx, [] => rfl
  | idx, row :: rest => by
    have ih := processRows_some cfg keys store (idx + 1) rest
    cases h : processRow cfg keys idx row with
    | warn m => simp [processRows, parsedTrans, rowWarns, ih, h]
    | trans t =>
      by_cases hd : isDup store t
      · simp [processRows, parsedTrans, rowWarns, ih, h, List.filter_cons, List.countP_cons,
          isDup] at hd ⊢
        simp [hd]
      · simp only [isDup] at hd
        simp [processRows, parsedTrans, rowWarns, ih, h, List.filter_cons, List.countP_cons,
          isDup, hd]

theorem foldl_insert_eq_append (store : Store) :
    ∀ ts : List Transaction, ts.foldl insert_transaction store = store ++ ts := by
  intro ts
  induction ts generalizing store with
  | nil => simp
  | cons t rest ih =>
    simp [insert_transaction, ih (store ++ [t])]

theorem isDup_append (s1 s2 : Store) (t : Transaction) :
    isDup (s1 ++ s2) t = (isDup s1 t || isDup s2 t) := by
  simp [isDup, get_duplicate_check, List.any_append]

theorem isDup_of_mem (l : Store) (t : Transaction) (h : t ∈ l) : isDup l t = true := by
  simp only [isDup, get_duplicate_check, List.any_eq_true]
  exact ⟨t, h, by simp⟩

/-! ### `import_file` run lemmas -/

theorem import_file_none_run (cfg : ImportConfig) (lines : List PyStr) (rows : List Row)
    (hp : parse_csv cfg lines = .ok rows) (hne : rows ≠ [])
    (hcols : missingCols cfg rows = []) :
    import_file cfg lines none =
      .ok ({ transactions := parsedTrans cfg (importKeys rows) 1 rows,
             warnings := rowWarns cfg (importKeys rows) 1 rows,
             duplicates := some 0 }, none) := by
  simp only [import_file, hp, if_neg hne, hcols, processRows_none]
  simp

theorem import_file_some_run (cfg : ImportConfig) (lines : List PyStr) (rows : List Row)
    (store : Store)
    (hp : parse_csv cfg lines = .ok rows) (hne : rows ≠ [])
    (hcols : missingCols cfg rows = []) :
    import_file cfg lines (some store) =
      .ok ({ transactions :=
               (parsedTrans cfg (importKeys rows) 1 rows).filter (fun t => !isDup store t),
             warnings :=
               rowWarns cfg (importKeys rows) 1 rows ++
                 (if 0 < (parsedTrans cfg (importKeys rows) 1 rows).countP (fun t => isDup store t)
                  then [dupWarnMsg ((parsedTrans cfg (importKeys rows) 1 rows).countP
                         (fun t => isDup store t))]
                  else []),
             duplicates :=
               some ((parsedTrans cfg (importKeys rows) 1 rows).countP (fun t => isDup store t)) },
           some (store ++
             (parsedTrans cfg (importKeys rows) 1 rows).filter (fun t => !isDup store t))) := by
  simp only [import_file, hp, if_neg hne, hcols, processRows_some, foldl_insert_eq_append]
  by_cases h0 :
      0 < (parsedTrans cfg (importKeys rows) 1 rows).countP (fun t => isDup store t) <;>
    simp [h0]

theorem import_file_ok_shape (cfg : ImportConfig) (lines : List PyStr) (db : Option Store)
    (r : ImportResult) (odb : Option Store)
    (h : import_file cfg lines db = .ok (r, odb)) (hdup : r.duplicates.isSome) :
    ∃ rows, parse_csv cfg lines = .ok rows ∧ rows ≠ [] ∧ missingCols cfg rows = [] := by
  cases hp : parse_csv cfg lines with
  | error e =>
    simp only [import_file, hp] at h
    exact absurd h (by simp)
  | ok rows =>
    simp only [import_file, hp] at h
    by_cases hne : rows = []
    · rw [if_pos hne] at h
      simp only [Except.ok.injEq, Prod.mk.injEq] at h
      rw [← h.1] at hdup
      simp at hdup
    · by_cases hm : missingCols cfg rows = []
      · exact ⟨rows, rfl, hne, hm⟩
      · rw [if_neg hne, if_pos hm] at h
        simp at h

/-! ### Generic counting helper -/

theorem length_filter_not_add_countP {α : Type} (p : α → Bool) :
    ∀ l : List α, (l.filter fun a => !p a).length + l.countP p = l.length := by
  intro l
  induction l with
  | nil => rfl
  | cons a rest ih =>
    by_cases h : p a <;>
      simp [List.filter_cons, List.countP_cons, h, ← ih] <;> omega

/-! ### Claim theorems -/

/-- C3 (code bug): a parsed file with a header but no data rows makes
`import_file` return only the pair `(transactions, warnings)` — modelled
as `duplicates := none` — instead of the triple with a duplicate count
that every other exit returns and that the repository's own tests and GUI
unpack. -/
theorem C3_no_rows_returns_pair :
    import_file french_bank [hdrLineF] (some []) =
      .ok ({ transactions := [], warnings := [chars "No transactions found in file"],
             duplicates := none }, some []) := by
  decide

/-- C4: the Amount Normalizer maps blank input to 0, is insensitive to
inserted spaces and non-breaking spaces, and sends the representations
`"1 330,55"`, `"1,330.55"`, `"1\xa0330,55"` and `"1330.55"` to the same
exact value `1330.55`; unparseable input also yields 0. -/
theorem C4_clean_amount :
    (∀ s : PyStr, pyStrip s = [] → clean_amount s = 0) ∧
    (∀ s t : PyStr, spaceStripped s = spaceStripped t → clean_amount s = clean_amount t) ∧
    clean_amount (chars "1 330,55") = mkRat 26611 20 ∧
    clean_amount (chars "1,330.55") = mkRat 26611 20 ∧
    clean_amount (chars "1 330,55") = mkRat 26611 20 ∧
    clean_amount (chars "1330.55") = mkRat 26611 20 ∧
    clean_amount (chars "") = 0 ∧
    clean_amount (chars "n/a") = 0 := by
  refine ⟨?_, ?_, by decide, by decide, by decide, by decide, by decide, by decide⟩
  · intro s h
    unfold clean_amount
    rw [if_pos (Or.inr h)]
  · intro s t h
    rw [clean_amount_eq_core, clean_amount_eq_core, h]

/-- C4 witness: the blank and space-insensitivity parts at concrete
inputs. -/
theorem C4_clean_amount_witness :
    clean_amount (chars "   ") = 0 ∧
    clean_amount (chars " 12,5 ") = clean_amount (chars "12,5") :=
  ⟨C4_clean_amount.1 (chars "   ") (by decide),
   C4_clean_amount.2.1 (chars " 12,5 ") (chars "12,5") (by decide)⟩

/-- C5 counterexample: the card-reference token is dropped only when it
starts with the letter `X`; a short alphanumeric token beginning with the
letter `A` is kept, contradicting the claim's "token beginning with a
letter" condition. -/
theorem C5_counterexample :
    parse_description (chars "PAIEMENT PAR CARTE A1234 LIDL") =
      (chars "PAIEMENT PAR CARTE", chars "A1234 LIDL") ∧
    chars "A1234 LIDL" ≠ chars "LIDL" := by
  exact ⟨by decide, by decide⟩

/-- C5 (amended): the Description Decomposer collapses whitespace,
matches the ordered prefix list case-insensitively (first match wins,
`VIREMENT EMIS` before plain `VIREMENT`), and for card payments drops a
first remaining token exactly when it starts with `X` (any length; the
token is kept when it is the only one); with no matching prefix the type
is `AUTRE` and the whole description is the counterparty; the
counterparty is truncated to 50 characters and an empty one becomes
`-`. -/
theorem C5_parse_description :
    (∀ d : PyStr, (parse_description d).2.length ≤ 50) ∧
    parse_description (chars "PAIEMENT PAR CARTE X3573 LIDL 0780") =
      (chars "PAIEMENT PAR CARTE", chars "LIDL 0780") ∧
    parse_description (chars "PRELEVEMENT Orange SA") =
      (chars "PRELEVEMENT", chars "Orange SA") ∧
    parse_description (chars "PAIEMENT PAR CARTE XTOKENOFANYLENGTH42 STORE") =
      (chars "PAIEMENT PAR CARTE", chars "STORE") ∧
    parse_description (chars "PAIEMENT PAR CARTE X3573") =
      (chars "PAIEMENT PAR CARTE", chars "X3573") ∧
    parse_description (chars "VIREMENT EMIS LOYER") =
      (chars "VIREMENT EMIS", chars "LOYER") ∧
    parse_description (chars "prelevement Orange") =
      (chars "PRELEVEMENT", chars "Orange") ∧
    parse_description (chars "CHEQUE 1234567") =
      (chars "AUTRE", chars "CHEQUE 1234567") ∧
    parse_description (chars "PRELEVEMENT") =
      (chars "PRELEVEMENT", chars "-") ∧
    parse_description (chars "  PAIEMENT   PAR  CARTE X1 LIDL  ") =
      (chars "PAIEMENT PAR CARTE", chars "LIDL") := by
  refine ⟨?_, by decide, by decide, by decide, by decide, by decide, by decide, by decide,
    by decide, by decide⟩
  intro d
  simp only [parse_description]
  split
  · decide
  · simp only [List.length_take]
    exact Nat.min_le_left _ _

/-- C10: with a database attached, `delete_rule` reports success even
when no rule with the given id exists, while `delete_category` reports
failure when no category with the given name exists. -/
theorem C10_delete_report_asymmetry :
    (∀ (d : CategoriesDB) (rule_id : Nat), (delete_rule (some d) rule_id).1 = true) ∧
    (∀ (d : CategoriesDB) (name : PyStr),
      (∀ c ∈ d.categories, c.2 ≠ name) → (delete_category (some d) name).1 = false) := by
  constructor
  · intro d rule_id
    rfl
  · intro d name h
    simp only [delete_category]
    rw [List.any_eq_false]
    intro c hc
    simpa using h c hc

/-- C10 witness: deleting a non-existent rule id reports `true`, deleting
a non-existent category name reports `false`. -/
theorem C10_delete_report_asymmetry_witness :
    (delete_rule (some ⟨[(1, chars "Alimentation")], [(1, chars "lidl", 1)]⟩) 99).1 = true ∧
    (delete_category (some ⟨[(1, chars "Alimentation")], [(1, chars "lidl", 1)]⟩)
        (chars "Fant")).1 = false :=
  ⟨C10_delete_report_asymmetry.1 _ 99,
   C10_delete_report_asymmetry.2 _ _ (by decide)⟩

/-- C2 counterexample: an import that skips one duplicate row appends the
summary warning `⚠️ 1 transaction(s) dupliquée(s) ignorée(s)` to the
returned warnings list — duplicate skips are not silent. -/
theorem C2_counterexample :
    import_file french_bank [hdrLineF, rowCard] (some [tCard]) =
      .ok ({ transactions := [], warnings := [dupWarnMsg 1], duplicates := some 1 },
        some [tCard]) := by
  decide

/-- C2 (amended): duplicate rows are skipped and counted without any
per-row warning — the warnings of a store-backed import are exactly those
of the store-less run of the same file — but when `duplicateCount > 0`
one summary warning about the skipped duplicates is appended at the
end. -/
theorem C2_dup_summary_warning (cfg : ImportConfig) (lines : List PyStr) (store : Store)
    (r : ImportResult) (odb : Option Store) (d : Nat)
    (h : import_file cfg lines (some store) = .ok (r, odb))
    (hd : r.duplicates = some d) :
    ∃ r0, import_file cfg lines none = .ok (r0, none) ∧
      r.warnings = r0.warnings ++ (if 0 < d then [dupWarnMsg d] else []) := by
  obtain ⟨rows, hp, hne, hm⟩ :=
    import_file_ok_shape cfg lines (some store) r odb h (by simp [hd])
  have hrun := import_file_some_run cfg lines rows store hp hne hm
  have heq := hrun.symm.trans h
  simp only [Except.ok.injEq, Prod.mk.injEq] at heq
  obtain ⟨hr, -⟩ := heq
  subst hr
  have hcnt :
      (parsedTrans cfg (importKeys rows) 1 rows).countP (fun t => isDup store t) = d := by
    simpa using hd
  refine ⟨_, import_file_none_run cfg lines rows hp hne hm, ?_⟩
  rw [← hcnt]

/-- C2 witness: the amended statement at a concrete duplicate-skipping
import. -/
theorem C2_dup_summary_warning_witness :
    ∃ r0, import_file french_bank [hdrLineF, rowCard] none = .ok (r0, none) ∧
      ([dupWarnMsg 1] : List PyStr) = r0.warnings ++ (if 0 < 1 then [dupWarnMsg 1] else []) :=
  C2_dup_summary_warning french_bank [hdrLineF, rowCard] [tCard]
    { transactions := [], warnings := [dupWarnMsg 1], duplicates := some 1 }
    (some [tCard]) 1 (by decide) rfl

/-- C9: the duplicate check of an import consults only the store's state
as it was before the batch: the accepted list is the store-less run's
candidate list filtered by duplicates against the initial store, the
whole batch is appended afterwards, and a file containing the same row
twice (with no prior matching store entry) has both copies accepted and
persisted. -/
theorem C9_prestate_dedup :
    (∀ (cfg : ImportConfig) (lines : List PyStr) (store : Store) (r : ImportResult)
        (odb : Option Store),
      import_file cfg lines (some store) = .ok (r, odb) → r.duplicates.isSome →
      ∃ r0, import_file cfg lines none = .ok (r0, none) ∧
        r.transactions = r0.transactions.filter (fun t => !isDup store t) ∧
        odb = some (store ++ r.transactions)) ∧
    import_file french_bank [hdrLineF, rowCard, rowCard] (some []) =
      .ok ({ transactions := [tCard, tCard], warnings := [], duplicates := some 0 },
        some [tCard, tCard]) := by
  constructor
  · intro cfg lines store r odb h hdup
    obtain ⟨rows, hp, hne, hm⟩ := import_file_ok_shape cfg lines (some store) r odb h hdup
    have hrun := import_file_some_run cfg lines rows store hp hne hm
    have heq := hrun.symm.trans h
    simp only [Except.ok.injEq, Prod.mk.injEq] at heq
    obtain ⟨hr, hdb⟩ := heq
    subst hr
    exact ⟨_, import_file_none_run cfg lines rows hp hne hm, rfl, hdb.symm⟩
  · decide

/-- C9 witness: the general statement applied to a store holding an
unrelated transaction. -/
theorem C9_prestate_dedup_witness :
    ∃ r0, import_file french_bank [hdrLineF, rowCard] none = .ok (r0, none) ∧
      ([tCard] : List Transaction) = r0.transactions.filter (fun t => !isDup [tVir] t) ∧
      (some [tVir, tCard] : Option Store) = some ([tVir] ++ [tCard]) :=
  C9_prestate_dedup.1 french_bank [hdrLineF, rowCard] [tVir]
    { transactions := [tCard], warnings := [], duplicates := some 0 }
    (some [tVir, tCard]) (by decide) rfl

/-- C1 counterexample: importing a one-row file twice into a store that
already held a matching row: the first import of the pair accepts 0 rows
and leaves the store unchanged, so the second import is the identical
call; its duplicateCount is 1, not the 0 rows accepted and persisted by
the first import. -/
theorem C1_counterexample :
    import_file french_bank [hdrLineF, rowCard] (some [tCard]) =
      .ok ({ transactions := [], warnings := [dupWarnMsg 1], duplicates := some 1 },
        some [tCard]) ∧
    (some 1 : Option Nat) ≠ some (List.length ([] : List Transaction)) := by
  exact ⟨by decide, by decide⟩

/-- C1 (amended): re-importing a file whose parse produced at least one
row: the second import accepts zero transactions, leaves the store
unchanged, and its duplicateCount is the first import's accepted count
plus the first import's own duplicateCount — which equals the first
import's accepted count exactly when the store held no matching rows
before the first import. -/
theorem C1_reimport (cfg : ImportConfig) (lines : List PyStr) (store : Store)
    (r1 : ImportResult) (db1 : Store) (d1 : Nat)
    (h1 : import_file cfg lines (some store) = .ok (r1, some db1))
    (hd1 : r1.duplicates = some d1) :
    ∃ r2, import_file cfg lines (some db1) = .ok (r2, some db1) ∧
      r2.transactions = [] ∧ r2.duplicates = some (r1.transactions.length + d1) := by
  obtain ⟨rows, hp, hne, hm⟩ :=
    import_file_ok_shape cfg lines (some store) r1 (some db1) h1 (by simp [hd1])
  have hrun1 := import_file_some_run cfg lines rows store hp hne hm
  have heq := hrun1.symm.trans h1
  simp only [Except.ok.injEq, Prod.mk.injEq, Option.some.injEq] at heq
  obtain ⟨hr, hdb⟩ := heq
  subst hr
  have hcnt :
      (parsedTrans cfg (importKeys rows) 1 rows).countP (fun t => isDup store t) = d1 := by
    simpa using hd1
  have hall : ∀ t ∈ parsedTrans cfg (importKeys rows) 1 rows, isDup db1 t = true := by
    intro t ht
    rw [← hdb, isDup_append]
    by_cases hs : isDup store t
    · simp [hs]
    · have hmem : t ∈ (parsedTrans cfg (importKeys rows) 1 rows).filter
          (fun t => !isDup store t) :=
        List.mem_filter.mpr ⟨ht, by simp [hs]⟩
      simp [isDup_of_mem _ t hmem]
  have hfilter : (parsedTrans cfg (importKeys rows) 1 rows).filter
      (fun t => !isDup db1 t) = [] := by
    apply List.filter_eq_nil_iff.mpr
    intro t ht
    simp [hall t ht]
  have hcount : (parsedTrans cfg (importKeys rows) 1 rows).countP
      (fun t => isDup db1 t) = (parsedTrans cfg (importKeys rows) 1 rows).length :=
    List.countP_eq_length.mpr hall
  have hlen : (parsedTrans cfg (importKeys rows) 1 rows).length =
      ((parsedTrans cfg (importKeys rows) 1 rows).filter
        (fun t => !isDup store t)).length + d1 := by
    rw [← hcnt]
    exact (length_filter_not_add_countP (fun t => isDup store t) _).symm
  have hrun2 := import_file_some_run cfg lines rows db1 hp hne hm
  rw [hfilter, hcount, List.append_nil] at hrun2
  refine ⟨_, hrun2, rfl, ?_⟩
  rw [hlen]

/-- C7: a row whose date does not parse is turned into a row-level
warning, a row whose date parses but whose description strips to empty is
turned into a row-level warning, and neither aborts the import: the
4-data-row file with one empty-description row, one unparseable-date row
and two valid rows imports without error, yielding exactly the 2 valid
transactions and their 2 warnings. -/
theorem C7_row_isolation :
    (∀ (cfg : ImportConfig) (keys : List PyStr) (idx : Nat) (row : Row) (e : PyStr),
      parse_date cfg.date_format
          (pyStrip (dictGetD (row.map fun kv => (pyStrip kv.1, kv.2))
            (mappedCol keys cfg.date_column) [])) = .error e →
      processRow cfg keys idx row = .warn (chars "Row " ++ natChars idx ++ chars ": " ++ e)) ∧
    (∀ (cfg : ImportConfig) (keys : List PyStr) (idx : Nat) (row : Row) (d : PyStr),
      parse_date cfg.date_format
          (pyStrip (dictGetD (row.map fun kv => (pyStrip kv.1, kv.2))
            (mappedCol keys cfg.date_column) [])) = .ok d →
      pyStrip (dictGetD (row.map fun kv => (pyStrip kv.1, kv.2))
          (mappedCol keys cfg.description_column) []) = [] →
      processRow cfg keys idx row =
        .warn (chars "Row " ++ natChars idx ++ chars ": Empty description, skipping")) ∧
    import_file french_bank [hdrLineF, rowEmptyDesc, rowBadDate, rowCard, rowVir] (some []) =
      .ok ({ transactions := [tCard, tVir],
             warnings := [chars "Row 1: Empty description, skipping",
                          chars "Row 2: Cannot parse date: 99/99/2024"],
             duplicates := some 0 }, some [tCard, tVir]) := by
  refine ⟨?_, ?_, by decide⟩
  · intro cfg keys idx row e h
    unfold processRow
    rw [h]
  · intro cfg keys idx row d h1 h2
    unfold processRow
    rw [h1, h2]
    rfl

/-- C7 witness: the two warning rules at the concrete bad-date and
empty-description rows. -/
theorem C7_row_isolation_witness :
    processRow french_bank frenchKeys 2 rowBadDateDict =
      .warn (chars "Row 2: Cannot parse date: 99/99/2024") ∧
    processRow french_bank frenchKeys 1 rowEmptyDescDict =
      .warn (chars "Row 1: Empty description, skipping") :=
  ⟨C7_row_isolation.1 french_bank frenchKeys 2 rowBadDateDict
      (chars "Cannot parse date: 99/99/2024") (by decide),
   C7_row_isolation.2.1 french_bank frenchKeys 1 rowEmptyDescDict
      (chars "2024-01-17") (by decide) (by decide)⟩

/-- C6: for the debit/credit-pair layout the computed amount is
`credit - debit` when the normalized credit is positive and `-debit`
otherwise; concretely, debit `85,50` / empty credit gives `-85.50` and
empty debit / credit `100,00` gives `100.00` through the whole
pipeline. -/
theorem C6_debit_credit_sign :
    (∀ (dateS descS debS credS : PyStr) (idx : Nat) (d : PyStr),
      parse_date DateFmt.dmySlash (pyStrip dateS) = .ok d →
      pyStrip descS ≠ [] →
      processRow french_bank frenchKeys idx
          [(chars "Date", dateS), (chars "Libellé", descS),
           (chars "Débit euros", debS), (chars "Crédit euros", credS)] =
        .trans { date := d, description := pyStrip descS,
                 amount := if 0 < clean_amount credS then
                     ratSub (clean_amount credS) (clean_amount debS)
                   else -clean_amount debS,
                 type := some (parse_description (pyStrip descS)).1,
                 name := some (parse_description (pyStrip descS)).2 }) ∧
    import_file french_bank [hdrLineF, rowCard, rowVir] none =
      .ok ({ transactions := [tCard, tVir], warnings := [], duplicates := some 0 }, none) ∧
    tCard.amount = mkRat (-171) 2 ∧
    tVir.amount = mkRat 100 1 := by
  refine ⟨?_, by decide, by decide, by decide⟩
  intro dateS descS debS credS idx d h1 h2
  have e1 : dictGetD (([(chars "Date", dateS), (chars "Libellé", descS),
      (chars "Débit euros", debS), (chars "Crédit euros", credS)] : Row).map
        fun kv => (pyStrip kv.1, kv.2)) (mappedCol frenchKeys french_bank.date_column) [] =
      dateS := rfl
  have e2 : dictGetD (([(chars "Date", dateS), (chars "Libellé", descS),
      (chars "Débit euros", debS), (chars "Crédit euros", credS)] : Row).map
        fun kv => (pyStrip kv.1, kv.2)) (mappedCol frenchKeys french_bank.description_column) [] =
      descS := rfl
  have e3 : dictGetD (([(chars "Date", dateS), (chars "Libellé", descS),
      (chars "Débit euros", debS), (chars "Crédit euros", credS)] : Row).map
        fun kv => (pyStrip kv.1, kv.2)) (mappedCol frenchKeys french_bank.debit_column) [] =
      debS := rfl
  have e4 : dictGetD (([(chars "Date", dateS), (chars "Libellé", descS),
      (chars "Débit euros", debS), (chars "Crédit euros", credS)] : Row).map
        fun kv => (pyStrip kv.1, kv.2)) (mappedCol frenchKeys french_bank.credit_column) [] =
      credS := rfl
  have hfmt : french_bank.date_format = DateFmt.dmySlash := rfl
  have hac : french_bank.amount_column = none := rfl
  unfold processRow
  rw [e1, hfmt, h1, e2, e3, e4, hac]
  split
  next e heq => simp at heq
  next date heq =>
    injection heq with hdate
    subst hdate
    rw [if_neg h2]

/-- C6 witness: the general amount rule at a concrete debit-only row. -/
theorem C6_debit_credit_sign_witness :
    processRow french_bank frenchKeys 1
        [(chars "Date", chars "15/01/2024"), (chars "Libellé", chars "ACHAT"),
         (chars "Débit euros", chars "85,50"), (chars "Crédit euros", chars "")] =
      .trans { date := chars "2024-01-15", description := pyStrip (chars "ACHAT"),
               amount := if 0 < clean_amount (chars "") then
                   ratSub (clean_amount (chars "")) (clean_amount (chars "85,50"))
                 else -clean_amount (chars "85,50"),
               type := some (parse_description (pyStrip (chars "ACHAT"))).1,
               name := some (parse_description (pyStrip (chars "ACHAT"))).2 } :=
  C6_debit_credit_sign.1 (chars "15/01/2024") (chars "ACHAT") (chars "85,50") (chars "")
    1 (chars "2024-01-15") (by decide) (by decide)

/-- A line matches some expected header pattern exactly when its
uppercasing contains `DATE`: the `("Date", "D")` pattern is implied by
`DATE` alone, and the other two patterns each also require `DATE`. -/
theorem expected_any_eq_date (line : PyStr) :
    expected_patterns.any (lineMatchesPattern line) =
      pyContains (pyUpper line) (chars "DATE") := by
  have h1 : pyUpper (chars "Date") = chars "DATE" := by decide
  have h2 : pyUpper (chars "D") = chars "D" := by decide
  simp only [expected_patterns, List.any_cons, List.any_nil, lineMatchesPattern, h1, h2,
    Bool.or_false]
  cases hD : pyContains (pyUpper line) (chars "DATE")
  · simp
  · have hd : pyContains (pyUpper line) (chars "D") = true := by
      rw [pyContains_iff] at hD ⊢
      exact List.IsInfix.trans (by decide) hD
    simp [hd]

/-- C8 counterexample: a metadata line containing `Date` (but not the
`Libellé` signature fragment) is picked as the header instead of the real
header line below it, and the import then aborts with the hard
missing-columns error rather than parsing the data rows. -/
theorem C8_counterexample :
    findHeaderIdx [metaDateLine, hdrLineF, rowCard] = some 0 ∧
    pyContains (pyUpper metaDateLine) (chars "LIBELL") = false ∧
    pyContains (pyUpper hdrLineF) (chars "LIBELL") = true ∧
    import_file french_bank [metaDateLine, hdrLineF, rowCard] (some []) =
      .error (chars "Import failed: Colonnes manquantes dans le CSV. Attendu: Date, Libellé, Débit euros, Crédit euros\nTrouvé: Date export: 2024") := by
  exact ⟨by decide, by decide, by decide, by decide⟩

/-- C8 (amended): the primary header scan degenerates to "first line
whose uppercasing contains `DATE`"; a file whose metadata lines avoid
`date` parses exactly the data rows after the real header (8 metadata
lines, a header and 2 rows import as exactly those 2 transactions); and
when no line contains `date` the import aborts with the hard
`no header` error — the looser `Date`-plus-description fallback can never
rescue it. -/
theorem C8_header_scan :
    (∀ lines : List PyStr,
      findHeaderIdx lines = lines.findIdx? fun l => pyContains (pyUpper l) (chars "DATE")) ∧
    import_file french_bank (metaLines ++ [hdrLineF, rowCard, rowVir]) (some []) =
      .ok ({ transactions := [tCard, tVir], warnings := [], duplicates := some 0 },
        some [tCard, tVir]) ∧
    (∀ (cfg : ImportConfig) (lines : List PyStr) (db : Option Store),
      (∀ l ∈ lines, pyContains (pyUpper l) (chars "DATE") = false) →
      import_file cfg lines db =
        .error (chars "Import failed: Error parsing CSV: Could not find header row in CSV file")) := by
  have hscan : ∀ lines : List PyStr,
      findHeaderIdx lines = lines.findIdx? fun l => pyContains (pyUpper l) (chars "DATE") := by
    intro lines
    unfold findHeaderIdx
    simp only [expected_any_eq_date]
  refine ⟨hscan, by decide, ?_⟩
  intro cfg lines db h
  have hnone : findHeaderIdx lines = none := by
    rw [hscan]
    apply List.findIdx?_eq_none_iff.mpr
    intro l hl
    simp [h l hl]
  have hfb : findHeaderFallback lines = none := by
    apply List.findIdx?_eq_none_iff.mpr
    intro l hl
    have hdate : pyContains l (chars "Date") = false := by
      cases hc : pyContains l (chars "Date")
      · rfl
      · exfalso
        rw [pyContains_iff] at hc
        have hup : chars "DATE" <:+: pyUpper l := by
          have := hc.map Char.toUpper
          simpa [pyUpper] using this
        have : pyContains (pyUpper l) (chars "DATE") = true := (pyContains_iff _ _).mpr hup
        rw [h l hl] at this
        exact Bool.false_ne_true this
    simp [hdate]
  have hparse : parse_csv cfg lines =
      .error (chars "Error parsing CSV: Could not find header row in CSV file") := by
    simp only [parse_csv, hnone, hfb]
  simp only [import_file, hparse]
  decide

/-- C8 witness: the hard-error branch on a file with no `date` line. -/
theorem C8_header_scan_witness :
    import_file french_bank [chars "Bonjour", chars "Monde"] none =
      .error (chars "Import failed: Error parsing CSV: Could not find header row in CSV file") :=
  C8_header_scan.2.2 french_bank [chars "Bonjour", chars "Monde"] none (by decide)

/-- C1 (amended) witness: re-importing a concrete two-row file into an
initially empty store. -/
theorem C1_reimport_witness :
    ∃ r2, import_file french_bank [hdrLineF, rowCard, rowVir] (some [tCard, tVir]) =
        .ok (r2, some [tCard, tVir]) ∧
      r2.transactions = [] ∧
      r2.duplicates = some
        (({ transactions := [tCard, tVir], warnings := [],
            duplicates := some 0 } : ImportResult).transactions.length + 0) :=
  C1_reimport french_bank [hdrLineF, rowCard, rowVir] []
    { transactions := [tCard, tVir], warnings := [], duplicates := some 0 }
    [tCard, tVir] 0 (by decide) rfl
